import Mathlib

/-!
Verification of the Prompt Compiler & Generation Orchestrator of the
SilkScript carpet-design service (src/main.py), shallowly embedded in Lean.

The embedding mirrors src/main.py:
* `CarpetDesignRequest` / `GenerationResponse` are the pydantic models.
* `create_detailed_prompt` is the pure prompt compiler (lines 35-86).
* `generate_carpet_design` is the POST /generate handler (lines 110-168),
  parameterised by an oracle `net : String -> NetOutcome` standing for the
  single outbound `requests.get` call; the handler also records an event
  trace (prompt compilations, outbound HTTP calls) so that ordering
  properties ("no network activity on validation failure") are statable.
* Python-library behaviour that the handler relies on is embedded
  explicitly: `pyLower` (ASCII fragment of `str.lower`), `pyQuote`
  (`urllib.parse.quote` with its default safe set), `dictGet`
  (`dict.get` with a default), `pyTruthy` (truthiness of an optional
  string), and `strOfHTTPException` (Starlette's `HTTPException.__str__`,
  which renders as "{status_code}: {detail}").
-/

/-- Truthiness of a Python `Optional[str]` value: `None` and `""` are falsy. -/
def pyTruthy (o : Option String) : Bool :=
  match o with
  | none => false
  | some s => decide (s ≠ "")

/-- ASCII fragment of Python `str.lower` on a single character. -/
def pyLowerChar (c : Char) : Char :=
  if 'A' ≤ c ∧ c ≤ 'Z' then Char.ofNat (c.toNat + 32) else c

/-- ASCII fragment of Python `str.lower`. All motif keys matched by the
source are pure ASCII, so this agrees with Python on every relevant input. -/
def pyLower (s : String) : String := String.mk (s.data.map pyLowerChar)

/-- Whether the pattern list occurs at the head of the haystack list. -/
def leadsWith : List Char → List Char → Bool
  | _, [] => true
  | [], _ :: _ => false
  | a :: as, b :: bs => a = b && leadsWith as bs

/-- Whether the pattern list occurs contiguously anywhere in the haystack
list: Python's `sub in s` substring test. -/
def containsSubList : List Char → List Char → Bool
  | [], sub => sub.isEmpty
  | hay@(_ :: t), sub => leadsWith hay sub || containsSubList t sub

/-- Python's `sub in s` substring containment on strings. -/
def strContainsB (hay sub : String) : Bool := containsSubList hay.data sub.data

/-- `s` contains `sub` as a literal contiguous substring. -/
def strContains (s sub : String) : Prop := ∃ pre post, s = pre ++ sub ++ post

/-- Python `dict.get` over an association list of palette entries:
first key equal to the query wins (keys in the source are distinct). -/
def dictGet : List (String × List String) → String → Option (List String)
  | [], _ => none
  | (k, v) :: rest, name => if name = k then some v else dictGet rest name

/-- UTF-8 encoding of one Unicode scalar value, as a list of byte values. -/
def utf8Bytes (c : Char) : List Nat :=
  let n := c.toNat
  if n < 0x80 then [n]
  else if n < 0x800 then [0xC0 + n / 0x40, 0x80 + n % 0x40]
  else if n < 0x10000 then
    [0xE0 + n / 0x1000, 0x80 + (n / 0x40) % 0x40, 0x80 + n % 0x40]
  else
    [0xF0 + n / 0x40000, 0x80 + (n / 0x1000) % 0x40,
     0x80 + (n / 0x40) % 0x40, 0x80 + n % 0x40]

/-- UTF-8 encoding of a string, as a list of byte values. -/
def stringUtf8 (s : String) : List Nat := (s.data.map utf8Bytes).flatten

/-- Bytes `urllib.parse.quote` leaves unescaped with its default arguments:
ASCII letters, digits, the always-safe marks `_.-~`, and the default safe
character `/`. -/
def isSafeByte (b : Nat) : Bool :=
  (0x41 ≤ b && b ≤ 0x5A) || (0x61 ≤ b && b ≤ 0x7A) ||
  (0x30 ≤ b && b ≤ 0x39) || b == 0x5F || b == 0x2E || b == 0x2D ||
  b == 0x7E || b == 0x2F

/-- Upper-case hexadecimal digit for a value below 16. -/
def hexDigit (n : Nat) : Char :=
  if n < 10 then Char.ofNat (0x30 + n) else Char.ofNat (0x37 + n)

/-- Percent-encoding of a single byte value, per `urllib.parse.quote`. -/
def encodeByte (b : Nat) : List Char :=
  if isSafeByte b then [Char.ofNat b]
  else ['%', hexDigit (b / 16), hexDigit (b % 16)]

/-- `urllib.parse.quote(s)` with its default arguments: UTF-8 encode, keep
safe bytes, escape every other byte as `%HH` with upper-case hex. -/
def pyQuote (s : String) : String :=
  String.mk (((stringUtf8 s).map encodeByte).flatten)

/-- Request model for carpet design data from the frontend
(src/main.py lines 22-26). `additional_details` is `Optional[str]`
defaulting to the empty string; `none` models an explicit JSON null. -/
structure CarpetDesignRequest where
  design_style : String
  color_palette : String
  motif : String
  additional_details : Option String
deriving DecidableEq

/-- Response model for the POST /generate endpoint (src/main.py lines 29-33). -/
structure GenerationResponse where
  success : Bool
  message : String
  image_url : Option String
  error : Option String
deriving DecidableEq

/-- The `color_palettes` table of `create_detailed_prompt`
(src/main.py lines 41-50). -/
def color_palettes : List (String × List String) :=
  [("Mystical Journey", ["Deep Purple", "Royal Blue", "Violet", "Light Gray"]),
   ("Mugham Harmony", ["Sky Blue", "Cyan", "Purple", "Amber"]),
   ("Royal Purple", ["Dark Purple", "Medium Purple", "Light Purple", "Pale Purple"]),
   ("Azure Sky", ["Sky Blue", "Cyan Blue", "Royal Blue", "Indigo"]),
   ("Earth Tones", ["Saddle Brown", "Chocolate", "Sandy Brown", "Sienna"]),
   ("Sunset Fire", ["Orange Red", "Dark Orange", "Gold", "Fire Brick"]),
   ("Forest Harmony", ["Forest Green", "Lime Green", "Olive Drab", "Yellow Green"]),
   ("Modern Monochrome", ["Dark Gray", "Gray", "Light Gray", "Very Light Gray"])]

/-- `color_palettes.get(name, ["Deep Red", "Navy Blue", "Golden Yellow",
"Dark Gray"])` (src/main.py line 53). -/
def paletteColors (name : String) : List String :=
  (dictGet color_palettes name).getD
    ["Deep Red", "Navy Blue", "Golden Yellow", "Dark Gray"]

/-- The motif-description if/elif chain of `create_detailed_prompt`
(src/main.py lines 57-70): lower-case the motif, test the three exact
names, then the two substring patterns, else fall back to the original
text followed by " motif". -/
def motifDescription (motifRaw : String) : String :=
  let motif := pyLower motifRaw
  if motif = "buta" then
    "Buta (traditional paisley motif, iconic Azerbaijan symbol representing life and eternity)"
  else if motif = "rosekhatte" then
    "RoseKhatte (rose and line motif, symbol of beauty and elegance in Azerbaijan carpets)"
  else if motif = "bird" then
    "Bird (freedom and nature symbol, representing the soul\x27s journey to heaven)"
  else if strContainsB motif "geometric" then
    "intricate geometric patterns (mathematical precision representing divine order and infinity)"
  else if strContainsB motif "floral" then
    "traditional floral designs (garden of paradise motifs with roses, tulips, and vines)"
  else motifRaw ++ " motif"

/-- The fixed-format prompt built at src/main.py lines 73-80, before the
optional details are appended. -/
def basePrompt (request : CarpetDesignRequest) : String :=
  "A highly detailed, traditional Persian and Azerbaijan carpet design in the style of "
    ++ request.design_style ++ ", "
    ++ "featuring " ++ motifDescription request.motif
    ++ ", clearly visible in the carpet design. "
    ++ "Intricate floral and geometric patterns, rich textures, and authentic weaving. "
    ++ "Color palette: "
    ++ String.intercalate ", " (paletteColors request.color_palette) ++ ". "
    ++ "Ornate, symmetrical, museum-quality, high-resolution, vibrant, "
    ++ "inspired by historical carpets from Shirvan, Karabagh, and the Caucasus region."

/-- `create_detailed_prompt` (src/main.py lines 35-86): the fixed-format
prompt, with " {additional_details}." appended when the optional details
are truthy. -/
def create_detailed_prompt (request : CarpetDesignRequest) : String :=
  if pyTruthy request.additional_details then
    basePrompt request ++ " " ++ request.additional_details.getD "" ++ "."
  else
    basePrompt request

/-- Outcome of the single outbound `requests.get` call, as the handler can
observe it: an HTTP status code, a raised `requests.RequestException`, or
any other raised exception (rendered by `str`). -/
inductive NetOutcome where
  | status : Nat → NetOutcome
  | requestException : String → NetOutcome
  | unexpectedException : String → NetOutcome
deriving DecidableEq

/-- Observable side effects of the handler, in order of occurrence:
invoking the prompt compiler, and issuing the outbound HTTP GET. -/
inductive Event where
  | compilePrompt : String → Event
  | httpGet : String → Event
deriving DecidableEq

/-- What the framework sends back for one request: the HTTP status code,
the serialized `GenerationResponse` body, and the handler's event trace. -/
structure HandlerOutput where
  status : Nat
  body : GenerationResponse
  events : List Event
deriving DecidableEq

/-- Starlette's `HTTPException.__str__`, which renders as
"{status_code}: {detail}"; the handler's catch-all applies `str` to the
swallowed exception. -/
def strOfHTTPException (code : Nat) (detail : String) : String :=
  toString code ++ ": " ++ detail

/-- The failure-shaped `GenerationResponse` used by every non-success
branch of the handler. -/
def failBody (err : String) : GenerationResponse :=
  ⟨false, "Failed to generate carpet design", none, some err⟩

/-- The Pollinations URL built at src/main.py lines 138-139. -/
def apiUrl (request : CarpetDesignRequest) : String :=
  "https://image.pollinations.ai/prompt/" ++ pyQuote (create_detailed_prompt request)

/-- The POST /generate handler `generate_carpet_design`
(src/main.py lines 110-168). The three empty-field checks raise
`HTTPException(status_code=400, detail=...)` inside the `try` block; that
exception is not a `requests.RequestException`, so it is caught by the
handler's own `except Exception` clause, which returns a normal
`GenerationResponse` whose error is "Internal error: " followed by
`str(exception)` — hence the HTTP status is 200 and the error text is
"Internal error: 400: {detail}". No prompt is compiled and no outbound
call is made on those paths (the raise precedes both), so their event
trace is empty. After validation, the prompt is compiled, percent-encoded
into the Pollinations URL, and the single GET is issued; status 200 maps
to the success shape carrying the URL, any other status to
"API returned status code {status}", a `requests.RequestException` to
"Network error: {str(e)}", and any other exception to
"Internal error: {str(e)}". -/
def generate_carpet_design (request : CarpetDesignRequest)
    (net : String → NetOutcome) : HandlerOutput :=
  if request.design_style = "" then
    ⟨200, failBody ("Internal error: " ++ strOfHTTPException 400 "Design style is required"), []⟩
  else if request.color_palette = "" then
    ⟨200, failBody ("Internal error: " ++ strOfHTTPException 400 "Color palette is required"), []⟩
  else if request.motif = "" then
    ⟨200, failBody ("Internal error: " ++ strOfHTTPException 400 "Motif is required"), []⟩
  else
    let prompt := create_detailed_prompt request
    let api_url := apiUrl request
    let events := [Event.compilePrompt prompt, Event.httpGet api_url]
    match net api_url with
    | NetOutcome.status code =>
        if code = 200 then
          ⟨200, ⟨true, "Carpet design generated successfully", some api_url, none⟩, events⟩
        else
          ⟨200, failBody ("API returned status code " ++ toString code), events⟩
    | NetOutcome.requestException msg =>
        ⟨200, failBody ("Network error: " ++ msg), events⟩
    | NetOutcome.unexpectedException msg =>
        ⟨200, failBody ("Internal error: " ++ msg), events⟩

/-- Body of a GET /generate-image response: either the image served at the
constructed URL, or an error object `\x7berror: string\x7d`. -/
inductive ImageBody where
  | image : String → ImageBody
  | err : String → ImageBody
deriving DecidableEq

/-- Framework-level view of one GET /generate-image exchange. -/
structure ImageEndpointOutput where
  status : Nat
  body : ImageBody
  events : List Event
deriving DecidableEq

/-- Modelled from the spec: the GET /generate-image endpoint
(query parameters design_pattern, color_palette, motif) is not present in
src/main.py; only POST /generate is. Following spec sections 4.1, 4.4, 6
and 8: palette lookup is strict — a miss yields HTTP 400 with body
`\x7berror: "Invalid color palette"\x7d` and no outbound call is
attempted; on a hit the prompt is compiled and the provider is called
once; upstream non-200 yields HTTP 502 `\x7berror: "Image generation
failed"\x7d`; any other exception yields HTTP 500 `\x7berror: string\x7d`. -/
def generate_image (design_pattern color_palette motif : String)
    (net : String → NetOutcome) : ImageEndpointOutput :=
  match dictGet color_palettes color_palette with
  | none => ⟨400, ImageBody.err "Invalid color palette", []⟩
  | some _ =>
    let prompt := create_detailed_prompt ⟨design_pattern, color_palette, motif, none⟩
    let url := "https://image.pollinations.ai/prompt/" ++ pyQuote prompt
    let events := [Event.compilePrompt prompt, Event.httpGet url]
    match net url with
    | NetOutcome.status code =>
        if code = 200 then ⟨200, ImageBody.image url, events⟩
        else ⟨502, ImageBody.err "Image generation failed", events⟩
    | NetOutcome.requestException msg => ⟨500, ImageBody.err msg, events⟩
    | NetOutcome.unexpectedException msg => ⟨500, ImageBody.err msg, events⟩

/-- Claim C4: motif description resolution is case-insensitive and follows a
fixed priority: the exact names "Buta", "RoseKhatte", "Bird" (ignoring case)
are checked before the substring tests for "geometric" and then "floral"
(first match in declaration order wins — in particular a motif containing
both "geometric" and "floral" resolves to the geometric description), and
when nothing matches the result is the original motif text followed by
" motif"; in particular "Unicorn" resolves to "Unicorn motif". -/
theorem motif_resolution_priority :
    (∀ s : String, pyLower s = "buta" → motifDescription s =
      "Buta (traditional paisley motif, iconic Azerbaijan symbol representing life and eternity)")
    ∧ (∀ s : String, pyLower s = "rosekhatte" → motifDescription s =
      "RoseKhatte (rose and line motif, symbol of beauty and elegance in Azerbaijan carpets)")
    ∧ (∀ s : String, pyLower s = "bird" → motifDescription s =
      "Bird (freedom and nature symbol, representing the soul\x27s journey to heaven)")
    ∧ (∀ s : String, pyLower s ≠ "buta" → pyLower s ≠ "rosekhatte" →
        pyLower s ≠ "bird" → strContainsB (pyLower s) "geometric" = true →
        motifDescription s =
      "intricate geometric patterns (mathematical precision representing divine order and infinity)")
    ∧ (∀ s : String, pyLower s ≠ "buta" → pyLower s ≠ "rosekhatte" →
        pyLower s ≠ "bird" → strContainsB (pyLower s) "geometric" = false →
        strContainsB (pyLower s) "floral" = true →
        motifDescription s =
      "traditional floral designs (garden of paradise motifs with roses, tulips, and vines)")
    ∧ (∀ s : String, pyLower s ≠ "buta" → pyLower s ≠ "rosekhatte" →
        pyLower s ≠ "bird" → strContainsB (pyLower s) "geometric" = false →
        strContainsB (pyLower s) "floral" = false →
        motifDescription s = s ++ " motif")
    ∧ motifDescription "Unicorn" = "Unicorn motif" := by
  refine ⟨?_, ?_, ?_, ?_, ?_, ?_, by decide⟩
  · intro s h; simp [motifDescription, h]
  · intro s h; simp [motifDescription, h]
  · intro s h; simp [motifDescription, h]
  · intro s h1 h2 h3 hg; simp [motifDescription, h1, h2, h3, hg]
  · intro s h1 h2 h3 hg hf; simp [motifDescription, h1, h2, h3, hg, hf]
  · intro s h1 h2 h3 hg hf; simp [motifDescription, h1, h2, h3, hg, hf]

/-- Evaluation of the C4 theorem at concrete inputs, discharging its
hypotheses: "BuTa" matches the exact name ignoring case, and a motif text
containing both "geometric" and "floral" takes the geometric branch. -/
theorem motif_resolution_priority_witness :
    motifDescription "BuTa" =
      "Buta (traditional paisley motif, iconic Azerbaijan symbol representing life and eternity)"
    ∧ motifDescription "Geometric floral mix" =
      "intricate geometric patterns (mathematical precision representing divine order and infinity)" :=
  ⟨motif_resolution_priority.1 "BuTa" (by decide),
   (motif_resolution_priority.2.2.2.1) "Geometric floral mix"
     (by decide) (by decide) (by decide) (by decide)⟩

/-- Claim C5: palette resolution is an exact, case-sensitive match against
the catalog's eight palette names; every exact key yields that palette's
own ordered four color names, and every other value — including correct
names with different letter case, such as "mystical journey" — yields the
fixed default fallback ["Deep Red", "Navy Blue", "Golden Yellow",
"Dark Gray"]. -/
theorem palette_resolution_exact_or_default :
    paletteColors "Mystical Journey" = ["Deep Purple", "Royal Blue", "Violet", "Light Gray"]
    ∧ paletteColors "Mugham Harmony" = ["Sky Blue", "Cyan", "Purple", "Amber"]
    ∧ paletteColors "Royal Purple" = ["Dark Purple", "Medium Purple", "Light Purple", "Pale Purple"]
    ∧ paletteColors "Azure Sky" = ["Sky Blue", "Cyan Blue", "Royal Blue", "Indigo"]
    ∧ paletteColors "Earth Tones" = ["Saddle Brown", "Chocolate", "Sandy Brown", "Sienna"]
    ∧ paletteColors "Sunset Fire" = ["Orange Red", "Dark Orange", "Gold", "Fire Brick"]
    ∧ paletteColors "Forest Harmony" = ["Forest Green", "Lime Green", "Olive Drab", "Yellow Green"]
    ∧ paletteColors "Modern Monochrome" = ["Dark Gray", "Gray", "Light Gray", "Very Light Gray"]
    ∧ (∀ name : String, name ≠ "Mystical Journey" → name ≠ "Mugham Harmony" →
        name ≠ "Royal Purple" → name ≠ "Azure Sky" → name ≠ "Earth Tones" →
        name ≠ "Sunset Fire" → name ≠ "Forest Harmony" → name ≠ "Modern Monochrome" →
        paletteColors name = ["Deep Red", "Navy Blue", "Golden Yellow", "Dark Gray"])
    ∧ paletteColors "mystical journey" = ["Deep Red", "Navy Blue", "Golden Yellow", "Dark Gray"] := by
  refine ⟨by decide, by decide, by decide, by decide, by decide, by decide, by decide, by decide,
    ?_, by decide⟩
  intro name h1 h2 h3 h4 h5 h6 h7 h8
  simp [paletteColors, dictGet, color_palettes, h1, h2, h3, h4, h5, h6, h7, h8]

/-- Evaluation of the C5 theorem's universally quantified clause at the
concrete non-key "Teal Dreams", discharging the eight inequality
hypotheses. -/
theorem palette_resolution_exact_or_default_witness :
    paletteColors "Teal Dreams" = ["Deep Red", "Navy Blue", "Golden Yellow", "Dark Gray"] :=
  palette_resolution_exact_or_default.2.2.2.2.2.2.2.2.1 "Teal Dreams"
    (by decide) (by decide) (by decide) (by decide)
    (by decide) (by decide) (by decide) (by decide)

/-- Claim C7: prompt compilation is deterministic (and, being a total Lean
function translated from the source, pure and total): any two requests
that agree on design_style, color_palette, motif and additional_details
compile to byte-identical prompt strings. -/
theorem prompt_compiler_deterministic (r1 r2 : CarpetDesignRequest)
    (h1 : r1.design_style = r2.design_style)
    (h2 : r1.color_palette = r2.color_palette)
    (h3 : r1.motif = r2.motif)
    (h4 : r1.additional_details = r2.additional_details) :
    create_detailed_prompt r1 = create_detailed_prompt r2 := by
  have : r1 = r2 := by cases r1; cases r2; simp_all
  rw [this]

/-- Evaluation of the C7 theorem at two syntactically distinct but
field-equal concrete requests. -/
theorem prompt_compiler_deterministic_witness :
    create_detailed_prompt ⟨"Tabriz", "Earth Tones", "Bird", some "gold fringe"⟩
      = create_detailed_prompt ⟨"Tabriz", "Earth Tones", "Bird", some "gold fringe"⟩ :=
  prompt_compiler_deterministic
    ⟨"Tabriz", "Earth Tones", "Bird", some "gold fringe"⟩
    ⟨"Tabriz", "Earth Tones", "Bird", some "gold fringe"⟩
    (by decide) (by decide) (by decide) (by decide)


/-- Splitting the prompt compiler into the fixed-format body and the
optional details suffix. -/
theorem create_detailed_prompt_eq (req : CarpetDesignRequest) :
    create_detailed_prompt req =
      basePrompt req ++ (if pyTruthy req.additional_details then
        " " ++ req.additional_details.getD "" ++ "." else "") := by
  by_cases h : pyTruthy req.additional_details <;>
    simp [create_detailed_prompt, h, String.append_assoc, String.append_empty]

/-- Claim C2: the compiled prompt is the fixed-order concatenation of the
scene preamble naming the design style, the resolved motif description,
the constant texture/weaving/authenticity block, "Color palette: "
followed by the resolved color names joined with ", ", the constant
closing block with the geographic attribution, and — exactly when the
additional details are non-empty — one space, the details verbatim, and a
trailing period (nothing is appended when they are empty); consequently
the prompt contains the style name, the joined color names, and the motif
description as literal substrings. -/
theorem prompt_structure_and_substrings (req : CarpetDesignRequest) :
    create_detailed_prompt req =
      "A highly detailed, traditional Persian and Azerbaijan carpet design in the style of "
        ++ req.design_style ++ ", "
        ++ "featuring " ++ motifDescription req.motif
        ++ ", clearly visible in the carpet design. "
        ++ "Intricate floral and geometric patterns, rich textures, and authentic weaving. "
        ++ "Color palette: "
        ++ String.intercalate ", " (paletteColors req.color_palette) ++ ". "
        ++ "Ornate, symmetrical, museum-quality, high-resolution, vibrant, "
        ++ "inspired by historical carpets from Shirvan, Karabagh, and the Caucasus region."
        ++ (if pyTruthy req.additional_details then
              " " ++ req.additional_details.getD "" ++ "." else "")
    ∧ strContains (create_detailed_prompt req) req.design_style
    ∧ strContains (create_detailed_prompt req)
        (String.intercalate ", " (paletteColors req.color_palette))
    ∧ strContains (create_detailed_prompt req) (motifDescription req.motif) := by
  refine ⟨?_, ?_, ?_, ?_⟩
  · rw [create_detailed_prompt_eq]
    simp only [basePrompt, String.append_assoc]
  · refine ⟨"A highly detailed, traditional Persian and Azerbaijan carpet design in the style of ",
      ", " ++ "featuring " ++ motifDescription req.motif
        ++ ", clearly visible in the carpet design. "
        ++ "Intricate floral and geometric patterns, rich textures, and authentic weaving. "
        ++ "Color palette: "
        ++ String.intercalate ", " (paletteColors req.color_palette) ++ ". "
        ++ "Ornate, symmetrical, museum-quality, high-resolution, vibrant, "
        ++ "inspired by historical carpets from Shirvan, Karabagh, and the Caucasus region."
        ++ (if pyTruthy req.additional_details then
              " " ++ req.additional_details.getD "" ++ "." else ""), ?_⟩
    rw [create_detailed_prompt_eq]
    simp only [basePrompt, String.append_assoc]
  · refine ⟨"A highly detailed, traditional Persian and Azerbaijan carpet design in the style of "
        ++ req.design_style ++ ", "
        ++ "featuring " ++ motifDescription req.motif
        ++ ", clearly visible in the carpet design. "
        ++ "Intricate floral and geometric patterns, rich textures, and authentic weaving. "
        ++ "Color palette: ",
      ". " ++ "Ornate, symmetrical, museum-quality, high-resolution, vibrant, "
        ++ "inspired by historical carpets from Shirvan, Karabagh, and the Caucasus region."
        ++ (if pyTruthy req.additional_details then
              " " ++ req.additional_details.getD "" ++ "." else ""), ?_⟩
    rw [create_detailed_prompt_eq]
    simp only [basePrompt, String.append_assoc]
  · refine ⟨"A highly detailed, traditional Persian and Azerbaijan carpet design in the style of "
        ++ req.design_style ++ ", " ++ "featuring ",
      ", clearly visible in the carpet design. "
        ++ "Intricate floral and geometric patterns, rich textures, and authentic weaving. "
        ++ "Color palette: "
        ++ String.intercalate ", " (paletteColors req.color_palette) ++ ". "
        ++ "Ornate, symmetrical, museum-quality, high-resolution, vibrant, "
        ++ "inspired by historical carpets from Shirvan, Karabagh, and the Caucasus region."
        ++ (if pyTruthy req.additional_details then
              " " ++ req.additional_details.getD "" ++ "." else ""), ?_⟩
    rw [create_detailed_prompt_eq]
    simp only [basePrompt, String.append_assoc]

/-- Claim C1: for every validated request (all three required fields
non-empty), the handler classifies the outcome of the single external
HTTP call into exactly one branch — upstream status 200 yields the
success shape carrying the constructed URL; any other status yields the
failure shape with error "API returned status code \x7bstatus\x7d"; a
network-level failure yields "Network error: \x7bcause\x7d"; any other
unexpected failure yields "Internal error: \x7bcause\x7d" — and in every
branch the image URL is present iff success and the error is present iff
not success. -/
theorem generate_outcome_classification (req : CarpetDesignRequest)
    (net : String → NetOutcome)
    (h1 : req.design_style ≠ "") (h2 : req.color_palette ≠ "")
    (h3 : req.motif ≠ "") :
    (net (apiUrl req) = NetOutcome.status 200 →
      generate_carpet_design req net =
        ⟨200, ⟨true, "Carpet design generated successfully", some (apiUrl req), none⟩,
         [Event.compilePrompt (create_detailed_prompt req), Event.httpGet (apiUrl req)]⟩)
    ∧ (∀ c : Nat, c ≠ 200 → net (apiUrl req) = NetOutcome.status c →
      generate_carpet_design req net =
        ⟨200, failBody ("API returned status code " ++ toString c),
         [Event.compilePrompt (create_detailed_prompt req), Event.httpGet (apiUrl req)]⟩)
    ∧ (∀ m : String, net (apiUrl req) = NetOutcome.requestException m →
      generate_carpet_design req net =
        ⟨200, failBody ("Network error: " ++ m),
         [Event.compilePrompt (create_detailed_prompt req), Event.httpGet (apiUrl req)]⟩)
    ∧ (∀ m : String, net (apiUrl req) = NetOutcome.unexpectedException m →
      generate_carpet_design req net =
        ⟨200, failBody ("Internal error: " ++ m),
         [Event.compilePrompt (create_detailed_prompt req), Event.httpGet (apiUrl req)]⟩)
    ∧ (generate_carpet_design req net).body.image_url.isSome
        = (generate_carpet_design req net).body.success
    ∧ (generate_carpet_design req net).body.error.isSome
        = !(generate_carpet_design req net).body.success := by
  refine ⟨?_, ?_, ?_, ?_, ?_, ?_⟩
  · intro hnet; simp [generate_carpet_design, h1, h2, h3, hnet]
  · intro c hc hnet; simp [generate_carpet_design, h1, h2, h3, hnet, hc]
  · intro m hnet; simp [generate_carpet_design, h1, h2, h3, hnet]
  · intro m hnet; simp [generate_carpet_design, h1, h2, h3, hnet]
  · rcases hnet : net (apiUrl req) with c | m | m
    · by_cases hc : c = 200 <;>
        simp [generate_carpet_design, h1, h2, h3, hnet, hc, failBody]
    · simp [generate_carpet_design, h1, h2, h3, hnet, failBody]
    · simp [generate_carpet_design, h1, h2, h3, hnet, failBody]
  · rcases hnet : net (apiUrl req) with c | m | m
    · by_cases hc : c = 200 <;>
        simp [generate_carpet_design, h1, h2, h3, hnet, hc, failBody]
    · simp [generate_carpet_design, h1, h2, h3, hnet, failBody]
    · simp [generate_carpet_design, h1, h2, h3, hnet, failBody]

/-- Evaluation of the C1 theorem's success branch at a concrete validated
request with the external call stubbed to return status 200. -/
theorem generate_outcome_classification_witness :
    generate_carpet_design ⟨"Tabriz", "Mystical Journey", "Buta", some ""⟩
        (fun _ => NetOutcome.status 200) =
      ⟨200, ⟨true, "Carpet design generated successfully",
        some (apiUrl ⟨"Tabriz", "Mystical Journey", "Buta", some ""⟩), none⟩,
       [Event.compilePrompt (create_detailed_prompt ⟨"Tabriz", "Mystical Journey", "Buta", some ""⟩),
        Event.httpGet (apiUrl ⟨"Tabriz", "Mystical Journey", "Buta", some ""⟩)]⟩ :=
  (generate_outcome_classification ⟨"Tabriz", "Mystical Journey", "Buta", some ""⟩
    (fun _ => NetOutcome.status 200) (by decide) (by decide) (by decide)).1 rfl

/-- Claim C3, recorded as a code bug: the spec requires a request with an
empty required field to be answered with HTTP 400 and a
`\x7bdetail: string\x7d` body and no GenerationResult, and the raise of
HTTPException(status_code=400, detail=...) at src/main.py lines 125-132
shows that intent; but the handler's own catch-all turns the exception
into a normal HTTP-200 GenerationResponse. At the concrete failing input
(empty design_style) the response status is 200, not 400, and a
GenerationResult body is produced. -/
theorem empty_field_yields_http200_not_400 :
    (generate_carpet_design ⟨"", "Mystical Journey", "Buta", some ""⟩
        (fun _ => NetOutcome.status 200)).status ≠ 400
    ∧ generate_carpet_design ⟨"", "Mystical Journey", "Buta", some ""⟩
        (fun _ => NetOutcome.status 200) =
      ⟨200, ⟨false, "Failed to generate carpet design", none,
        some "Internal error: 400: Design style is required"⟩, []⟩ := by
  constructor
  · decide
  · decide

/-- Claim C8: for every request with an empty design_style, color_palette
or motif, the handler stops before compiling a prompt and before any
outbound network activity: its event trace is empty — in particular it
records no prompt compilation and no HTTP GET. -/
theorem validation_fails_before_compile_and_network
    (req : CarpetDesignRequest) (net : String → NetOutcome)
    (h : req.design_style = "" ∨ req.color_palette = "" ∨ req.motif = "") :
    (generate_carpet_design req net).events = []
    ∧ (∀ p : String, Event.compilePrompt p ∉ (generate_carpet_design req net).events)
    ∧ (∀ u : String, Event.httpGet u ∉ (generate_carpet_design req net).events) := by
  have hev : (generate_carpet_design req net).events = [] := by
    rcases h with h | h | h
    · simp [generate_carpet_design, h]
    · by_cases h1 : req.design_style = "" <;> simp [generate_carpet_design, h1, h]
    · by_cases h1 : req.design_style = "" <;> by_cases h2 : req.color_palette = "" <;>
        simp [generate_carpet_design, h1, h2, h]
  exact ⟨hev, fun p => by simp [hev], fun u => by simp [hev]⟩

/-- Evaluation of the C8 theorem at a concrete request with an empty
motif: no event is recorded. -/
theorem validation_fails_before_compile_and_network_witness :
    (generate_carpet_design ⟨"Tabriz", "Mystical Journey", "", none⟩
        (fun _ => NetOutcome.status 200)).events = [] :=
  (validation_fails_before_compile_and_network
    ⟨"Tabriz", "Mystical Journey", "", none⟩ (fun _ => NetOutcome.status 200)
    (Or.inr (Or.inr rfl))).1

/-- Claim C9: a parseable body with an empty required field is not
answered with the field-specific 400 response: the HTTPException raised
by the in-handler validation is caught by the handler's own catch-all, so
the endpoint responds with HTTP 200 and a GenerationResponse with
success = false, message = "Failed to generate carpet design", and an
error string "Internal error: 400: \x7bdetail\x7d" carrying the detail of
the first failing check in source order. -/
theorem validation_error_swallowed_to_200
    (req : CarpetDesignRequest) (net : String → NetOutcome)
    (h : req.design_style = "" ∨ req.color_palette = "" ∨ req.motif = "") :
    (generate_carpet_design req net).status = 200
    ∧ (generate_carpet_design req net).body.success = false
    ∧ (generate_carpet_design req net).body.message = "Failed to generate carpet design"
    ∧ ∃ d : String,
        (generate_carpet_design req net).body.error = some ("Internal error: 400: " ++ d)
        ∧ ((req.design_style = "" ∧ d = "Design style is required")
           ∨ (req.design_style ≠ "" ∧ req.color_palette = "" ∧ d = "Color palette is required")
           ∨ (req.design_style ≠ "" ∧ req.color_palette ≠ "" ∧ req.motif = ""
              ∧ d = "Motif is required")) := by
  by_cases h1 : req.design_style = ""
  · refine ⟨by simp [generate_carpet_design, h1], by simp [generate_carpet_design, h1, failBody],
      by simp [generate_carpet_design, h1, failBody],
      "Design style is required", ?_, Or.inl ⟨h1, rfl⟩⟩
    simp [generate_carpet_design, h1, failBody, strOfHTTPException]
    decide
  · by_cases h2 : req.color_palette = ""
    · refine ⟨by simp [generate_carpet_design, h1, h2],
        by simp [generate_carpet_design, h1, h2, failBody],
        by simp [generate_carpet_design, h1, h2, failBody],
        "Color palette is required", ?_, Or.inr (Or.inl ⟨h1, h2, rfl⟩)⟩
      simp [generate_carpet_design, h1, h2, failBody, strOfHTTPException]
      decide
    · have h3 : req.motif = "" := by tauto
      refine ⟨by simp [generate_carpet_design, h1, h2, h3],
        by simp [generate_carpet_design, h1, h2, h3, failBody],
        by simp [generate_carpet_design, h1, h2, h3, failBody],
        "Motif is required", ?_, Or.inr (Or.inr ⟨h1, h2, h3, rfl⟩)⟩
      simp [generate_carpet_design, h1, h2, h3, failBody, strOfHTTPException]
      decide

/-- Evaluation of the C9 theorem at a concrete request with an empty
design_style: HTTP 200 with the swallowed validation detail. -/
theorem validation_error_swallowed_to_200_witness :
    (generate_carpet_design ⟨"", "Mystical Journey", "Buta", none⟩
        (fun _ => NetOutcome.status 200)).status = 200
    ∧ (generate_carpet_design ⟨"", "Mystical Journey", "Buta", none⟩
        (fun _ => NetOutcome.status 200)).body.error
      = some "Internal error: 400: Design style is required" :=
  ⟨(validation_error_swallowed_to_200 ⟨"", "Mystical Journey", "Buta", none⟩
      (fun _ => NetOutcome.status 200) (Or.inl rfl)).1, by decide⟩

/-- Claim C6: for every validated request the handler percent-encodes the
compiled prompt (urllib.parse.quote with its default safe set, embedded
as pyQuote) into the path segment of the provider URL, and when the
upstream call returns status 200 the response body's image URL is exactly
that constructed URL, with no error and no separate image-bytes artifact
— the only outbound call recorded is the single GET to that URL. -/
theorem success_returns_constructed_url (req : CarpetDesignRequest)
    (net : String → NetOutcome)
    (h1 : req.design_style ≠ "") (h2 : req.color_palette ≠ "")
    (h3 : req.motif ≠ "")
    (hnet : net (apiUrl req) = NetOutcome.status 200) :
    apiUrl req = "https://image.pollinations.ai/prompt/"
        ++ pyQuote (create_detailed_prompt req)
    ∧ (generate_carpet_design req net).body.image_url = some (apiUrl req)
    ∧ (generate_carpet_design req net).body.error = none
    ∧ (generate_carpet_design req net).events
        = [Event.compilePrompt (create_detailed_prompt req), Event.httpGet (apiUrl req)] := by
  refine ⟨rfl, ?_, ?_, ?_⟩ <;> simp [generate_carpet_design, h1, h2, h3, hnet]

/-- Evaluation of the C6 theorem at a concrete validated request with the
external call stubbed to return status 200. -/
theorem success_returns_constructed_url_witness :
    (generate_carpet_design ⟨"Shirvan", "Sunset Fire", "Bird", some "with border"⟩
        (fun _ => NetOutcome.status 200)).body.image_url
      = some ("https://image.pollinations.ai/prompt/"
          ++ pyQuote (create_detailed_prompt
              ⟨"Shirvan", "Sunset Fire", "Bird", some "with border"⟩)) :=
  (success_returns_constructed_url ⟨"Shirvan", "Sunset Fire", "Bird", some "with border"⟩
    (fun _ => NetOutcome.status 200) (by decide) (by decide) (by decide) rfl).2.1

/-- Claim C10: in the GET /generate-image variant (modelled from the spec;
the endpoint is not in src/main.py), a palette-lookup miss is answered
with HTTP 400 and body `\x7berror: "Invalid color palette"\x7d` and no
outbound call is attempted: the event trace is empty. -/
theorem generate_image_strict_palette_miss
    (design_pattern color_palette motif : String) (net : String → NetOutcome)
    (h : dictGet color_palettes color_palette = none) :
    generate_image design_pattern color_palette motif net
      = ⟨400, ImageBody.err "Invalid color palette", []⟩ := by
  simp [generate_image, h]

/-- End-to-end scenario 4 of the spec: GET /generate-image with
design_pattern=Shirvan, color_palette=NoSuchPalette, motif=Buta is
answered with HTTP 400 and "Invalid color palette", applying the C10
theorem at that concrete input. -/
theorem generate_image_strict_palette_miss_witness :
    generate_image "Shirvan" "NoSuchPalette" "Buta" (fun _ => NetOutcome.status 200)
      = ⟨400, ImageBody.err "Invalid color palette", []⟩ :=
  generate_image_strict_palette_miss "Shirvan" "NoSuchPalette" "Buta"
    (fun _ => NetOutcome.status 200) (by decide)
